import Mathlib

/-!
Verification of the `MovieData` module (`movie_data_v2.py`) of the
Group_13 repository.

The development shallowly embeds the module's data model and its five
query operations (`movie_type`, `actor_count`, `actor_distributions`,
`releases`, `ages`) together with the acquisition (`setup`) and load
(`_load_dataframes`) stages.  Pandas dataframes are embedded as Lean
lists of typed rows, Python dictionaries as association lists in
insertion order, `collections.Counter` as a first-encounter-keyed
count list, and the raising behaviour of the Python code as `Except`
values whose error constructors correspond to the individual `raise`
sites of the source.
-/

/-! ## List utilities mirroring the Python/pandas primitives -/

/-- First-occurrence deduplication with an accumulator of already seen
elements.  `firstDedupAux seen l` keeps the first occurrence of every
element of `l` that is not in `seen`, in encounter order. -/
def firstDedupAux [DecidableEq α] (seen : List α) : List α → List α
  | [] => []
  | a :: l => if a ∈ seen then firstDedupAux seen l else a :: firstDedupAux (a :: seen) l

/-- First-occurrence deduplication: the distinct elements of `l` in the
order in which they first appear.  This is the key order of a Python
`dict` / `collections.Counter` built by a left-to-right scan. -/
def firstDedup [DecidableEq α] (l : List α) : List α := firstDedupAux [] l

/-- Embedding of `collections.Counter(l).items()`: each distinct element
of `l` paired with its multiplicity, keys in first-encounter order. -/
def counter [DecidableEq α] (l : List α) : List (α × Nat) :=
  (firstDedup l).map (fun a => (a, l.count a))

theorem mem_firstDedupAux [DecidableEq α] (x : α) :
    ∀ (l seen : List α), x ∈ firstDedupAux seen l ↔ x ∈ l ∧ x ∉ seen := by
  intro l
  induction l with
  | nil => intro seen; simp [firstDedupAux]
  | cons a t ih =>
    intro seen
    by_cases ha : a ∈ seen
    · rw [firstDedupAux, if_pos ha, ih]
      constructor
      · rintro ⟨hx, hns⟩
        exact ⟨List.mem_cons_of_mem _ hx, hns⟩
      · rintro ⟨hx, hns⟩
        rcases List.mem_cons.mp hx with rfl | hx
        · exact absurd ha hns
        · exact ⟨hx, hns⟩
    · rw [firstDedupAux, if_neg ha]
      constructor
      · intro hmem
        rcases List.mem_cons.mp hmem with rfl | hmem
        · exact ⟨List.mem_cons_self _ _, ha⟩
        · obtain ⟨hx, hns⟩ := (ih (a :: seen)).mp hmem
          refine ⟨List.mem_cons_of_mem _ hx, fun hs => hns (List.mem_cons_of_mem _ hs)⟩
      · rintro ⟨hx, hns⟩
        by_cases hxa : x = a
        · subst hxa; exact List.mem_cons_self _ _
        · rcases List.mem_cons.mp hx with h | h
          · exact absurd h hxa
          · refine List.mem_cons_of_mem _ ((ih (a :: seen)).mpr ⟨h, ?_⟩)
            intro hs
            rcases List.mem_cons.mp hs with h2 | h2
            · exact hxa h2
            · exact hns h2

theorem mem_firstDedup [DecidableEq α] {x : α} {l : List α} :
    x ∈ firstDedup l ↔ x ∈ l := by
  simp [firstDedup, mem_firstDedupAux]

theorem nodup_firstDedupAux [DecidableEq α] :
    ∀ (l seen : List α), (firstDedupAux seen l).Nodup := by
  intro l
  induction l with
  | nil => intro seen; simp [firstDedupAux]
  | cons a t ih =>
    intro seen
    by_cases ha : a ∈ seen
    · rw [firstDedupAux, if_pos ha]; exact ih seen
    · rw [firstDedupAux, if_neg ha]
      refine List.nodup_cons.mpr ⟨fun hmem => ?_, ih (a :: seen)⟩
      exact ((mem_firstDedupAux a t (a :: seen)).mp hmem).2 (List.mem_cons_self a seen)

theorem nodup_firstDedup [DecidableEq α] (l : List α) : (firstDedup l).Nodup :=
  nodup_firstDedupAux l []

/-- `firstDedup` is a permutation of Mathlib's `List.dedup`. -/
theorem firstDedup_perm_dedup [DecidableEq α] (l : List α) :
    List.Perm (firstDedup l) l.dedup := by
  refine (List.perm_ext_iff_of_nodup (nodup_firstDedup l) l.nodup_dedup).mpr ?_
  intro a
  rw [mem_firstDedup, List.mem_dedup]

theorem counter_mem_count [DecidableEq α] {l : List α} {p : α × Nat}
    (hp : p ∈ counter l) : p.2 = l.count p.1 := by
  rcases List.mem_map.mp hp with ⟨a, _, rfl⟩
  rfl

theorem counter_mem_key [DecidableEq α] {l : List α} {p : α × Nat}
    (hp : p ∈ counter l) : p.1 ∈ l := by
  rcases List.mem_map.mp hp with ⟨a, ha, rfl⟩
  exact mem_firstDedup.mp ha

theorem mem_counter_of_mem [DecidableEq α] {l : List α} {a : α} (ha : a ∈ l) :
    (a, l.count a) ∈ counter l :=
  List.mem_map.mpr ⟨a, mem_firstDedup.mpr ha, rfl⟩

/-- The multiplicities recorded by `counter` sum to the length of the
scanned list. -/
theorem counter_map_snd [DecidableEq α] (l : List α) :
    (counter l).map Prod.snd = (firstDedup l).map (fun a => l.count a) := by
  rw [counter, List.map_map]; rfl

theorem counter_map_fst [DecidableEq α] (l : List α) :
    (counter l).map Prod.fst = firstDedup l := by
  rw [counter, List.map_map]
  exact List.map_id _

theorem counter_sum_length [DecidableEq α] (l : List α) :
    ((counter l).map Prod.snd).sum = l.length := by
  have hperm : List.Perm ((firstDedup l).map (fun a => l.count a))
      (l.dedup.map (fun a => l.count a)) :=
    (firstDedup_perm_dedup l).map _
  rw [counter_map_snd, hperm.sum_eq, List.sum_map_count_dedup_eq_length]

theorem counter_keys_nodup [DecidableEq α] (l : List α) :
    ((counter l).map Prod.fst).Nodup := by
  rw [counter_map_fst]; exact nodup_firstDedup l

/-! ## Stable sorts

`Counter.most_common` sorts items by descending count via
`heapq.nlargest`, which is documented as equivalent to a stable
descending sort followed by truncation; pandas' `groupby` and the
key-unique `sort_values` calls sort ascending.  Both are embedded as
stable insertion sorts. -/

/-- Stable insert for the descending-by-count order used by
`Counter.most_common`: `x` is placed before the first element whose
count is less than or equal to its own. -/
def insDesc (x : α × Nat) : List (α × Nat) → List (α × Nat)
  | [] => [x]
  | y :: ys => if y.2 ≤ x.2 then x :: y :: ys else y :: insDesc x ys

/-- Stable sort by descending count (ties keep the input order). -/
def sortCountDesc (l : List (α × Nat)) : List (α × Nat) := l.foldr insDesc []

/-- Embedding of `Counter.most_common(n)`: stable descending sort of the
count list truncated to `n` items; non-positive `n` yields the empty
list, exactly as `heapq.nlargest` does. -/
def most_common (l : List (α × Nat)) (n : Int) : List (α × Nat) :=
  (sortCountDesc l).take n.toNat

theorem insDesc_perm (x : α × Nat) (l : List (α × Nat)) :
    List.Perm (insDesc x l) (x :: l) := by
  induction l with
  | nil => exact List.Perm.refl _
  | cons y ys ih =>
    rw [insDesc]
    by_cases h : y.2 ≤ x.2
    · rw [if_pos h]
    · rw [if_neg h]
      exact (ih.cons y).trans (List.Perm.swap x y ys)

theorem sortCountDesc_perm (l : List (α × Nat)) :
    List.Perm (sortCountDesc l) l := by
  induction l with
  | nil => exact List.Perm.refl _
  | cons a t ih =>
    have : sortCountDesc (a :: t) = insDesc a (sortCountDesc t) := rfl
    rw [this]
    exact (insDesc_perm a (sortCountDesc t)).trans (ih.cons a)

theorem mem_insDesc {x z : α × Nat} {l : List (α × Nat)} :
    z ∈ insDesc x l ↔ z = x ∨ z ∈ l := by
  rw [(insDesc_perm x l).mem_iff]
  exact List.mem_cons

theorem insDesc_pairwise {x : α × Nat} {l : List (α × Nat)}
    (hl : l.Pairwise (fun a b => b.2 ≤ a.2)) :
    (insDesc x l).Pairwise (fun a b => b.2 ≤ a.2) := by
  induction l with
  | nil => simp [insDesc]
  | cons y ys ih =>
    rw [insDesc]
    rcases List.pairwise_cons.mp hl with ⟨hy, hys⟩
    by_cases h : y.2 ≤ x.2
    · rw [if_pos h]
      refine List.pairwise_cons.mpr ⟨?_, hl⟩
      intro z hz
      rcases List.mem_cons.mp hz with rfl | hz
      · exact h
      · exact le_trans (hy z hz) h
    · rw [if_neg h]
      refine List.pairwise_cons.mpr ⟨?_, ih hys⟩
      intro z hz
      rcases mem_insDesc.mp hz with rfl | hz
      · exact le_of_not_le h
      · exact hy z hz

theorem sortCountDesc_pairwise (l : List (α × Nat)) :
    (sortCountDesc l).Pairwise (fun a b => b.2 ≤ a.2) := by
  induction l with
  | nil => simp [sortCountDesc]
  | cons a t ih => exact insDesc_pairwise ih

/-- Stability of the descending sort: the sublist of entries with any
fixed count `k` is exactly the corresponding sublist of the input, in
the same order. -/
theorem insDesc_filter_count [DecidableEq α] (k : Nat) (x : α × Nat)
    (l : List (α × Nat)) (hl : l.Pairwise (fun a b => b.2 ≤ a.2)) :
    (insDesc x l).filter (fun p => p.2 == k) =
      if x.2 = k then x :: l.filter (fun p => p.2 == k)
      else l.filter (fun p => p.2 == k) := by
  induction l with
  | nil =>
    by_cases hx : x.2 = k
    · simp [insDesc, List.filter_cons, hx]
    · simp [insDesc, List.filter_cons, hx]
  | cons y ys ih =>
    rcases List.pairwise_cons.mp hl with ⟨_, hys⟩
    rw [insDesc]
    by_cases h : y.2 ≤ x.2
    · rw [if_pos h]
      by_cases hx : x.2 = k
      · simp [List.filter_cons, hx]
      · simp [List.filter_cons, hx]
    · rw [if_neg h]
      have hyk : (y.2 == k) = (y.2 == k) := rfl
      by_cases hx : x.2 = k
      · have hyne : ¬ (y.2 = k) := by
          intro hy
          exact h (le_of_eq (hy.trans hx.symm))
        rw [if_pos hx]
        rw [List.filter_cons, List.filter_cons]
        simp only [beq_iff_eq, hyne, ite_false, if_false]
        rw [ih hys, if_pos hx]
      · rw [if_neg hx]
        rw [List.filter_cons, List.filter_cons]
        by_cases hy : y.2 = k
        · simp only [beq_iff_eq, hy, ite_true, if_true]
          rw [ih hys, if_neg hx]
        · simp only [beq_iff_eq, hy, ite_false, if_false]
          rw [ih hys, if_neg hx]

theorem sortCountDesc_filter_count [DecidableEq α] (k : Nat)
    (l : List (α × Nat)) :
    (sortCountDesc l).filter (fun p => p.2 == k) =
      l.filter (fun p => p.2 == k) := by
  induction l with
  | nil => rfl
  | cons a t ih =>
    have h1 : sortCountDesc (a :: t) = insDesc a (sortCountDesc t) := rfl
    rw [h1, insDesc_filter_count k a _ (sortCountDesc_pairwise t)]
    by_cases ha : a.2 = k
    · rw [if_pos ha, ih, List.filter_cons]
      simp [ha]
    · rw [if_neg ha, ih, List.filter_cons]
      simp [ha]

/-- Stable insert for an ascending sort by the key `f` (pandas
`groupby`, and `sort_values` on a key-unique column). -/
def insKey [LinearOrder κ] (f : α → κ) (x : α) : List α → List α
  | [] => [x]
  | y :: ys => if f x ≤ f y then x :: y :: ys else y :: insKey f x ys

/-- Stable ascending sort by the key `f`. -/
def sortKey [LinearOrder κ] (f : α → κ) (l : List α) : List α :=
  l.foldr (insKey f) []

theorem insKey_perm [LinearOrder κ] (f : α → κ) (x : α) (l : List α) :
    List.Perm (insKey f x l) (x :: l) := by
  induction l with
  | nil => exact List.Perm.refl _
  | cons y ys ih =>
    rw [insKey]
    by_cases h : f x ≤ f y
    · rw [if_pos h]
    · rw [if_neg h]
      exact (ih.cons y).trans (List.Perm.swap x y ys)

theorem sortKey_perm [LinearOrder κ] (f : α → κ) (l : List α) :
    List.Perm (sortKey f l) l := by
  induction l with
  | nil => exact List.Perm.refl _
  | cons a t ih =>
    have : sortKey f (a :: t) = insKey f a (sortKey f t) := rfl
    rw [this]
    exact (insKey_perm f a (sortKey f t)).trans (ih.cons a)

theorem mem_insKey [LinearOrder κ] {f : α → κ} {x z : α} {l : List α} :
    z ∈ insKey f x l ↔ z = x ∨ z ∈ l := by
  rw [(insKey_perm f x l).mem_iff]
  exact List.mem_cons

theorem insKey_pairwise [LinearOrder κ] {f : α → κ} {x : α} {l : List α}
    (hl : l.Pairwise (fun a b => f a ≤ f b)) :
    (insKey f x l).Pairwise (fun a b => f a ≤ f b) := by
  induction l with
  | nil => simp [insKey]
  | cons y ys ih =>
    rw [insKey]
    rcases List.pairwise_cons.mp hl with ⟨hy, hys⟩
    by_cases h : f x ≤ f y
    · rw [if_pos h]
      refine List.pairwise_cons.mpr ⟨?_, hl⟩
      intro z hz
      rcases List.mem_cons.mp hz with rfl | hz
      · exact h
      · exact le_trans h (hy z hz)
    · rw [if_neg h]
      refine List.pairwise_cons.mpr ⟨?_, ih hys⟩
      intro z hz
      rcases mem_insKey.mp hz with rfl | hz
      · exact le_of_not_le h
      · exact hy z hz

theorem sortKey_pairwise [LinearOrder κ] (f : α → κ) (l : List α) :
    (sortKey f l).Pairwise (fun a b => f a ≤ f b) := by
  induction l with
  | nil => simp [sortKey]
  | cons a t ih => exact insKey_pairwise ih

/-! ## String helpers

The Python code manipulates date strings through slicing
(`.str[:4]`, `.str[5:7]`), `str.isnumeric`, `str.strip` and `int(...)`.
These are embedded as character-list operations so that everything
reduces inside the kernel. -/

/-- `s[:n]` on a Python string. -/
def strTakeChars (n : Nat) (s : String) : String := ⟨s.data.take n⟩

/-- `s[a:b]` on a Python string. -/
def strSliceChars (a b : Nat) (s : String) : String := ⟨(s.data.drop a).take (b - a)⟩

/-- `str.isnumeric` restricted to the ASCII digit strings that occur in
the dataset's date fields. -/
def isNumericStr (s : String) : Bool := !s.data.isEmpty && s.data.all Char.isDigit

/-- `int(s)` on a string of ASCII digits. -/
def digitsToNat (s : String) : Nat :=
  s.data.foldl (fun acc c => acc * 10 + (c.toNat - 48)) 0

/-- `str.strip` (whitespace removal at both ends). -/
def stripChars (s : String) : String :=
  ⟨((s.data.dropWhile Char.isWhitespace).reverse.dropWhile Char.isWhitespace).reverse⟩

/-- `os.path.join(a, b)` for the path shapes used by the module. -/
def os_path_join (a b : String) : String :=
  if a.data.getLast? = some '/' then a ++ b else a ++ "/" ++ b

/-! ## Data model

One row per line of the two metadata TSV files, with the column names
assigned positionally by `_load_dataframes`.  Nullable columns are
`Option`s (pandas `NaN`), numeric columns are `ℚ`, and the serialized
genre mapping is a `GenresCell`. -/

/-- Errors raised by the query methods, one constructor per `raise`
site (or library exception point) of `movie_data_v2.py`; the spec's
taxonomy maps `InvalidArgument` to the `TypeError`/`ValueError`
argument checks, `InvalidRange` to the `min_height > max_height`
`ValueError`, and `NotLoadedError` to the "Dataset not loaded."
`ValueError`. -/
inductive QueryError
  /-- `ValueError("Dataset not loaded.")`. -/
  | notLoaded
  /-- `TypeError("Gender must be a string.")`. -/
  | invalidArgGenderType
  /-- `TypeError("Height values must be numerical.")`. -/
  | invalidArgHeightType
  /-- `ValueError("min_height must be less than max_height.")`. -/
  | invalidRange
  /-- `ValueError(f"Invalid gender. Accepted values: {valid_genders}")`,
  carrying the dynamically computed accepted list. -/
  | invalidArgGender (accepted : List String)
  /-- `ValueError(f"Invalid genre. Choose from: {sorted(all_genres)}")`,
  carrying the dynamically computed genre set. -/
  | invalidArgGenre (accepted : List String)
  /-- `ValueError` raised by `ast.literal_eval` on an already-parsed
  (non-string) dict value. -/
  | valueErrorLiteralEval
  /-- `TypeError` raised by `d["name"]` when `d` is a string (iterating
  a dict yields its keys). -/
  | typeErrorStrIndex
  /-- `ValueError` raised by `astype(int)` on a non-numeric token. -/
  | malformedDate
deriving DecidableEq

/-- The `genres` cell of a movie row.  `raw m` is the cell as loaded
from disk: the serialized text representation of the code-to-name
mapping `m` (a well-formed Python dict literal, as the dataset
guarantees).  `parsed m` is the state after `movie_type`/`releases`
overwrote the column in place with `ast.literal_eval`'s result. -/
inductive GenresCell
  | raw (m : List (String × String))
  | parsed (m : List (String × String))
deriving DecidableEq

/-- `ast.literal_eval` applied to a `genres` cell: parsing the raw text
succeeds and yields the mapping; applying it to an already-parsed dict
raises `ValueError` ("malformed node or string"). -/
def literal_eval : GenresCell → Except QueryError (List (String × String))
  | .raw m => .ok m
  | .parsed _ => .error .valueErrorLiteralEval

/-- `list(x.values())` on a parsed genre dict: the display names in
insertion order. -/
def dictValues (m : List (String × String)) : List String := m.map Prod.snd

/-- One row of `movie.metadata.tsv` under the schema of
`_load_dataframes`. -/
structure MovieRow where
  wikipedia_movie_id : Int
  freebase_movie_id : String
  title : String
  release_date : Option String
  box_office_revenue : Option ℚ
  runtime_min : Option ℚ
  languages : String
  countries : String
  genres : GenresCell
deriving DecidableEq

/-- One row of `character.metadata.tsv` under the schema of
`_load_dataframes`. -/
structure CharRow where
  wikipedia_movie_id : Int
  freebase_movie_id : String
  movie_release_date : Option String
  character_name : Option String
  actor_date_of_birth : Option String
  actor_gender : Option String
  actor_height_in_meters : Option ℚ
  actor_ethnicity_freebase_id : Option String
  actor_name : Option String
  actor_age_at_movie_release : Option ℚ
  freebase_character_or_actor_map_id : Option String
  freebase_character_id : Option String
  freebase_actor_id : Option String
deriving DecidableEq

/-- Column names of the character table, in file order. -/
def charColumns : List String :=
  ["wikipedia_movie_id", "freebase_movie_id", "movie_release_date",
   "character_name", "actor_date_of_birth", "actor_gender",
   "actor_height_in_meters", "actor_ethnicity_freebase_id", "actor_name",
   "actor_age_at_movie_release", "freebase_character_or_actor_map_id",
   "freebase_character_id", "freebase_actor_id"]

/-- A pandas dataframe result: its column names and its typed rows. -/
structure DF (α : Type) where
  columns : List String
  rows : List α
deriving DecidableEq

/-- The `MovieData` instance state: the three tables, `none` before
loading (the pydantic defaults). -/
structure MovieData where
  movie_df : Option (List MovieRow) := none
  character_df : Option (List CharRow) := none
  plot_summaries : Option (List (Int × String)) := none
deriving DecidableEq

/-- Monadic map over `Except` (pandas `Series.apply` / a Python
comprehension over fallible element operations): the first failing
element aborts the whole column computation and the enclosing
statement never assigns its result. -/
def traverseE (f : α → Except ε β) : List α → Except ε (List β)
  | [] => .ok []
  | a :: l =>
    match f a with
    | .error e => .error e
    | .ok b =>
      match traverseE f l with
      | .error e => .error e
      | .ok bs => .ok (b :: bs)

/-! ## Query operations -/

/-- The in-place overwritten movie rows after
`self.movie_df["genres"] = self.movie_df["genres"].apply(ast.literal_eval)`. -/
def parsedRows (rows : List MovieRow) (maps : List (List (String × String))) :
    List MovieRow :=
  (rows.zip maps).map (fun rm => { rm.1 with genres := GenresCell.parsed rm.2 })

/-- The flattened list of all genre display names across all rows
(`[genre for sublist in ... for genre in sublist]`). -/
def allGenresOf (maps : List (List (String × String))) : List String :=
  (maps.map dictValues).flatten

/-- The rows of the dataframe `movie_type` returns:
`Counter(all_genres).most_common(N)`. -/
def movieTypeRows (maps : List (List (String × String))) (N : Int) :
    List (String × Nat) :=
  most_common (counter (allGenresOf maps)) N

/-- `MovieData.movie_type(N)`.  Mirrors the source statement by
statement: loaded check, in-place re-assignment of the `genres` column
through `ast.literal_eval` (the defective mutation: the returned state
carries `parsed` cells), flattening of all display names, `Counter`,
`most_common(N)`, and the `["Movie_Type", "Count"]` dataframe.  The
`isinstance(N, int)` guard is discharged by typing `N : Int`. -/
def movie_type (md : MovieData) (N : Int) :
    Except QueryError (MovieData × DF (String × Nat)) :=
  match md.movie_df with
  | none => .error .notLoaded
  | some rows =>
    match traverseE (fun r => literal_eval r.genres) rows with
    | .error e => .error e
    | .ok maps =>
      .ok ({ md with movie_df := some (parsedRows rows maps) },
           ⟨["Movie_Type", "Count"], movieTypeRows maps N⟩)

/-- Number of distinct non-null actor names credited on movie `mid`
(`groupby("wikipedia_movie_id")["actor_name"].nunique()` for one
group; `nunique` ignores `NaN`). -/
def distinctActorCountOf (rows : List CharRow) (mid : Int) : Nat :=
  (firstDedup ((rows.filter (fun r => r.wikipedia_movie_id == mid)).filterMap
    (fun r => r.actor_name))).length

/-- The distinct movie identifiers of the character table in ascending
order (`groupby("wikipedia_movie_id")` group keys). -/
def movieIdsOf (rows : List CharRow) : List Int :=
  sortKey (fun i => i) (firstDedup (rows.map (fun r => r.wikipedia_movie_id)))

/-- The rows of the dataframe `actor_count` returns: `value_counts`
over the per-movie distinct-actor counts, then `sort_values` ascending
by the actor-count value.  `value_counts` yields one row per distinct
count value, so the final sort order is unique. -/
def actorHist (rows : List CharRow) : List (Nat × Nat) :=
  sortKey (fun p => p.1) (counter ((movieIdsOf rows).map (distinctActorCountOf rows)))

/-- `MovieData.actor_count()`: per-movie distinct actor counts,
`value_counts` histogram over those counts, sorted ascending by the
actor-count value.  `groupby` enumerates the distinct movie ids in
ascending order; `value_counts` produces one row per distinct count
value, so the final `sort_values` ordering is unique. -/
def actor_count (md : MovieData) : Except QueryError (DF (Nat × Nat)) :=
  match md.character_df with
  | none => .error .notLoaded
  | some rows => .ok ⟨["Number_of_Actors", "Movie_Count"], actorHist rows⟩

/-- A dynamically typed Python argument value, as far as the
`isinstance` guards of `actor_distributions` observe it. -/
inductive PyVal
  | pystr (s : String)
  | pynum (q : ℚ)
  | pynone
deriving DecidableEq

/-- `["All"] + character_df["actor_gender"].dropna().unique().tolist()`:
the dynamically computed accepted gender values, `unique` keeping the
first-encounter order of the non-null values. -/
def validGendersOf (rows : List CharRow) : List String :=
  "All" :: firstDedup (rows.filterMap (fun r => r.actor_gender))

/-- The gender filter: no filtering for `"All"`, otherwise the rows
whose (non-null) gender equals `g`. -/
def genderFilter (g : String) (rows : List CharRow) : List CharRow :=
  if g = "All" then rows
  else rows.filter (fun r => r.actor_gender == some g)

/-- The height-range filter, inclusive on both ends; a pandas
comparison against `NaN` is false, so rows with a null height never
pass. -/
def heightFilter (mn mx : ℚ) (rows : List CharRow) : List CharRow :=
  rows.filter (fun r =>
    match r.actor_height_in_meters with
    | some h => decide (mn ≤ h) && decide (h ≤ mx)
    | none => false)

/-- `MovieData.actor_distributions(gender, min_height, max_height,
plot)`.  Validation in source order: gender must be a string, heights
numeric, `min_height ≤ max_height`, dataset loaded, gender in the
dynamic accepted set; then the gender filter (none for `"All"`) and the
inclusive height-range filter (pandas comparisons on `NaN` are false,
so null heights drop out).  The `plot` flag only triggers matplotlib
rendering and does not affect the returned dataframe. -/
def actor_distributions (md : MovieData) (gender minHeight maxHeight : PyVal)
    (_plot : Bool) : Except QueryError (DF CharRow) :=
  match gender with
  | .pystr g =>
    match minHeight, maxHeight with
    | .pynum mn, .pynum mx =>
      if mn > mx then .error .invalidRange
      else
        match md.character_df with
        | none => .error .notLoaded
        | some rows =>
          if g ∈ validGendersOf rows then
            .ok ⟨charColumns, heightFilter mn mx (genderFilter g rows)⟩
          else .error (.invalidArgGender (validGendersOf rows))
    | _, _ => .error .invalidArgHeightType
  | _ => .error .invalidArgGenderType

/-- The 4-character year token of a movie's release date
(`.astype(str).str[:4]` after `dropna`). -/
def relYearTok (r : MovieRow) : String := strTakeChars 4 (r.release_date.getD "")

/-- The active `releases` body's `[d["name"] for d in x]` where `x` is
the parsed genre mapping: iterating a Python dict yields its keys
(strings), and indexing a string with `"name"` raises `TypeError`, so
the comprehension only succeeds (with `[]`) on an empty mapping. -/
def namesOfGenreDict (m : List (String × String)) :
    Except QueryError (List String) :=
  match m with
  | [] => .ok []
  | _ :: _ => .error .typeErrorStrIndex

/-- The active `releases` body's `any(d["name"] == genre for d in x)`:
same string-indexing failure on any non-empty mapping. -/
def genreMatch (m : List (String × String)) : Except QueryError Bool :=
  match m with
  | [] => .ok false
  | _ :: _ => .error .typeErrorStrIndex

/-- `groupby("release_year").size()`, `astype(int)` and the ascending
sort shared by both branches of `releases`: distinct year tokens with
multiplicities, converted to integers (`ValueError` on a non-numeric
token), sorted ascending by the integer year.  `groupby` emits the
distinct tokens in ascending string order, an order the subsequent
numeric `sort_values` re-establishes, so the tokens are kept here in
first-encounter order and only the final, output-relevant sort is
modelled. -/
def yearGroup (rows : List MovieRow) : Except QueryError (List (Nat × Nat)) :=
  match traverseE (fun p =>
      if isNumericStr p.1 then Except.ok (digitsToNat p.1, p.2)
      else Except.error QueryError.malformedDate)
    (counter (rows.map relYearTok)) with
  | .error e => .error e
  | .ok conv => .ok (sortKey (fun p => p.1) conv)

/-- `MovieData.releases(genre)` — the ACTIVE definition at lines
405-468 of the source (the earlier, correct variant is dead code inside
a string literal).  Statement by statement: loaded check, `dropna` on
`release_date` written back in place, year-token column, then, when
`genre` is truthy (Python: non-`None` and non-empty), in-place
`literal_eval` of the genre column, the `[d["name"] for d in x]`
comprehension, the membership check against that set, the
`any(d["name"] == genre ...)` filter, and finally the per-year counts.
Mis-indentation of the method's final `return` (line 468) additionally
makes the module fail to import; the embedding models the intended
per-statement semantics of the method body. -/
def releases (md : MovieData) (genre : Option String) :
    Except QueryError (MovieData × DF (Nat × Nat)) :=
  match md.movie_df with
  | none => .error .notLoaded
  | some rows0 =>
    let rows1 := rows0.filter (fun r => r.release_date.isSome)
    let g := genre.getD ""
    if g ≠ "" then
      match traverseE (fun r => literal_eval r.genres) rows1 with
      | .error e => .error e
      | .ok maps =>
        let rows2 := parsedRows rows1 maps
        match traverseE namesOfGenreDict maps with
        | .error e => .error e
        | .ok nameLists =>
          let all_genres := firstDedup nameLists.flatten
          if g ∈ all_genres then
            match traverseE genreMatch maps with
            | .error e => .error e
            | .ok flags =>
              let filtered := ((rows2.zip flags).filter (fun rf => rf.2)).map Prod.fst
              match yearGroup filtered with
              | .error e => .error e
              | .ok pairs =>
                .ok ({ md with movie_df := some rows2 },
                     ⟨["release_year", "Movie_Count"], pairs⟩)
          else .error (.invalidArgGenre (sortKey (fun s => s) all_genres))
    else
      match yearGroup rows1 with
      | .error e => .error e
      | .ok pairs =>
        .ok ({ md with movie_df := some rows1 },
             ⟨["release_year", "Movie_Count"], pairs⟩)

/-- The birth date string of a character row after `dropna`
(`astype(str)`). -/
def dobStr (r : CharRow) : String := r.actor_date_of_birth.getD ""

/-- `birth_year` derived column: `.str[:4]`. -/
def birthYearTok (r : CharRow) : String := strTakeChars 4 (dobStr r)

/-- `birth_month` derived column: `.str[5:7]`. -/
def birthMonthTok (r : CharRow) : String := strSliceChars 5 7 (dobStr r)

/-- `dropna(subset=["actor_date_of_birth"])`: the rows retained (and
written back to `character_df` in place) by `ages`. -/
def dobRows (rows : List CharRow) : List CharRow :=
  rows.filter (fun r => r.actor_date_of_birth.isSome)

/-- The rows of the dataframe `ages(unit="Y")` returns: group by the
4-character year token, keep the numeric tokens, convert to integers
and sort ascending. -/
def agesYearRows (rows1 : List CharRow) : List (Nat × Nat) :=
  sortKey (fun p => p.1)
    (((counter (rows1.map birthYearTok)).filter (fun p => isNumericStr p.1)).map
      (fun p => (digitsToNat p.1, p.2)))

/-- `MovieData.ages(unit)`.  `dropna` on the birth date is written back
to `character_df` in place; a `unit` other than `"Y"`/`"M"` silently
falls back to `"Y"`.  The `"Y"` branch groups by year token, filters to
numeric tokens, converts and sorts ascending; the `"M"` branch drops
empty month tokens (also written back in place), converts
(`ValueError` on a non-numeric month token) and sorts ascending.  The
derived `birth_year`/`birth_month` columns are functions of the
retained rows and are recomputed rather than stored; as in `yearGroup`,
the token-order in which `groupby` emits the distinct groups is
superseded by the final numeric sort and is kept as first-encounter
order. -/
def ages (md : MovieData) (unit : String) :
    Except QueryError (MovieData × DF (Nat × Nat)) :=
  match md.character_df with
  | none => .error .notLoaded
  | some rows0 =>
    let rows1 := dobRows rows0
    let u := if unit = "Y" ∨ unit = "M" then unit else "Y"
    if u = "Y" then
      .ok ({ md with character_df := some rows1 },
           ⟨["Year", "Birth_Count"], agesYearRows rows1⟩)
    else
      let rows2 := rows1.filter (fun r => stripChars (birthMonthTok r) ≠ "")
      match traverseE (fun p =>
          if isNumericStr p.1 then Except.ok (digitsToNat p.1, p.2)
          else Except.error QueryError.malformedDate)
        (counter (rows2.map birthMonthTok)) with
      | .error e => .error e
      | .ok conv =>
        .ok ({ md with character_df := some rows2 },
             ⟨["Month", "Birth_Count"], sortKey (fun p => p.1) conv⟩)

/-! ## Load and acquisition stages

The filesystem is embedded as the list of existing paths.  The tables
a successful `pd.read_csv` would parse are passed in as parameters:
their content never influences the load-stage control flow, only the
presence of the files does. -/

/-- Errors of the load stage. -/
inductive LoadError
  /-- The explicit
  `raise FileNotFoundError("One or more dataset files are missing. Check extraction.")`,
  carrying its message verbatim. -/
  | fileNotFoundMsg (msg : String)
  /-- The `FileNotFoundError` that `pd.read_csv` raises on a missing
  file; it names the offending path. -/
  | readFileNotFound (path : String)
deriving DecidableEq

/-- The message of the module's own missing-file error. -/
def loadMissingMsg : String :=
  "One or more dataset files are missing. Check extraction."

/-- Substring test (used to ask whether an error message names a
file). -/
def startsWithChars : List Char → List Char → Bool
  | _, [] => true
  | [], _ :: _ => false
  | a :: s, b :: t => a = b && startsWithChars s t

/-- Does `s` contain `pat` as a contiguous substring? -/
def hasSubChars : List Char → List Char → Bool
  | [], pat => pat.isEmpty
  | a :: tail, pat => startsWithChars (a :: tail) pat || hasSubChars tail pat

/-- Does the string `s` mention `sub`? -/
def strMentions (s sub : String) : Bool := hasSubChars s.data sub.data

/-- Does a load-stage error name the given file? -/
def loadErrorNames (e : LoadError) (file : String) : Bool :=
  match e with
  | .fileNotFoundMsg m => strMentions m file
  | .readFileNotFound p => strMentions p file

/-- `MovieData._load_dataframes`.  The guard checks only the movie and
character files; when both exist all three `read_csv` calls run, so a
missing `plot_summaries.txt` surfaces as the reader's own
`FileNotFoundError` instead of the module's message. -/
def load_dataframes (extract_path : String) (fs : List String)
    (movieTbl : List MovieRow) (charTbl : List CharRow)
    (plotTbl : List (Int × String)) : Except LoadError MovieData :=
  let movie_file := os_path_join extract_path "movie.metadata.tsv"
  let character_file := os_path_join extract_path "character.metadata.tsv"
  let plot_file := os_path_join extract_path "plot_summaries.txt"
  if movie_file ∈ fs ∧ character_file ∈ fs then
    if plot_file ∈ fs then
      .ok { movie_df := some movieTbl, character_df := some charTbl,
            plot_summaries := some plotTbl }
    else .error (.readFileNotFound plot_file)
  else .error (.fileNotFoundMsg loadMissingMsg)

/-- Events the acquisition stage can perform besides existence
checks. -/
inductive AcqEv
  | download
  | extract
deriving DecidableEq

/-- Create a path if it is absent (`os.makedirs(exist_ok=True)`, and the
effect of writing a file). -/
def insertPath (p : String) (fs : List String) : List String :=
  if p ∈ fs then fs else p :: fs

/-- `MovieData.setup` (the pydantic `model_validator`): ensure the
download directory, download the archive unless the archive file
exists, extract unless the extraction directory exists (extraction
materialises `archivePaths`, the paths inside the tarball), then load.
The returned trace records which non-check work was performed. -/
def acquirePhase (download_path extract_path : String)
    (archivePaths fs : List String) : List String × List AcqEv :=
  let fs1 := insertPath download_path fs
  let filename := os_path_join download_path "MovieSummaries.tar.gz"
  let dl : List String × List AcqEv :=
    if filename ∈ fs1 then (fs1, []) else (insertPath filename fs1, [AcqEv.download])
  let ex : List String × List AcqEv :=
    if extract_path ∈ dl.1 then (dl.1, [])
    else (archivePaths.foldl (fun a p => insertPath p a) dl.1, [AcqEv.extract])
  (ex.1, dl.2 ++ ex.2)

/-- `MovieData.setup`, in full: the acquisition phase followed by
`_load_dataframes` on the resulting filesystem. -/
def setup (download_path extract_path : String) (archivePaths : List String)
    (fs : List String) (movieTbl : List MovieRow) (charTbl : List CharRow)
    (plotTbl : List (Int × String)) :
    Except LoadError (List String × List AcqEv × MovieData) :=
  match load_dataframes extract_path
      (acquirePhase download_path extract_path archivePaths fs).1
      movieTbl charTbl plotTbl with
  | .error e => .error e
  | .ok md =>
    .ok ((acquirePhase download_path extract_path archivePaths fs).1,
         (acquirePhase download_path extract_path archivePaths fs).2, md)

/-! ## Supporting lemmas for the claims -/

/-- A `genres` column of freshly loaded (raw) cells deserializes
successfully to its mappings. -/
theorem traverseE_literal_eval :
    ∀ (rows : List MovieRow) (maps : List (List (String × String))),
      rows.map (fun r => r.genres) = maps.map GenresCell.raw →
      traverseE (fun r => literal_eval r.genres) rows = Except.ok maps := by
  intro rows
  induction rows with
  | nil =>
    intro maps h
    cases maps with
    | nil => rfl
    | cons m mt => simp at h
  | cons r t ih =>
    intro maps h
    cases maps with
    | nil => simp at h
    | cons m mt =>
      rw [List.map_cons, List.map_cons] at h
      injection h with h1 h2
      rw [traverseE, h1, literal_eval, ih mt h2]

/-- The filtered prefix: filtering a `take` yields a prefix of
filtering the whole list. -/
theorem filter_take_append (p : α → Bool) :
    ∀ (l : List α) (n : Nat), ∃ t, l.filter p = (l.take n).filter p ++ t := by
  intro l
  induction l with
  | nil => intro n; exact ⟨[], by simp⟩
  | cons a l' ih =>
    intro n
    cases n with
    | zero => exact ⟨(a :: l').filter p, by simp⟩
    | succ n' =>
      obtain ⟨t, ht⟩ := ih n'
      refine ⟨t, ?_⟩
      rw [List.take_succ_cons, List.filter_cons, List.filter_cons]
      by_cases hp : p a
      · simp only [hp, if_true, ite_true]
        rw [ht, List.cons_append]
      · simp only [hp, if_false, ite_false]
        exact ht

/-! ## Concrete instances used by counterexamples and witnesses -/

/-- One freshly loaded movie row whose serialized genre mapping holds
the single display name "Drama". -/
def sampleMovieRow : MovieRow :=
  { wikipedia_movie_id := 1, freebase_movie_id := "/m/01", title := "T",
    release_date := some "1999-01-01", box_office_revenue := none,
    runtime_min := none, languages := "{}", countries := "{}",
    genres := GenresCell.raw [("/m/02l7c8", "Drama")] }

/-- A loaded `MovieData` instance holding `sampleMovieRow`. -/
def sampleMovie : MovieData := { movie_df := some [sampleMovieRow] }

/-- `sampleMovie` after the in-place genre mutation of `movie_type`. -/
def sampleMovieMutated : MovieData :=
  { movie_df := some [{ sampleMovieRow with
      genres := GenresCell.parsed [("/m/02l7c8", "Drama")] }] }

/-- 1.5 as a rational (the spec example's `min_height`). -/
def q15 : ℚ := ⟨3, 2, by decide, by decide⟩

/-- 1.7 as a rational (a sample actor height inside [1.5, 2.0]). -/
def q17 : ℚ := ⟨17, 10, by decide, by decide⟩

/-- A character row of movie `mid` for actor `nm` born on `dob`, male,
1.7 m tall. -/
def sampleChar (mid : Int) (nm : String) (dob : Option String) : CharRow :=
  { wikipedia_movie_id := mid, freebase_movie_id := "/m/01",
    movie_release_date := none, character_name := none,
    actor_date_of_birth := dob, actor_gender := some "M",
    actor_height_in_meters := some q17, actor_ethnicity_freebase_id := none,
    actor_name := some nm, actor_age_at_movie_release := none,
    freebase_character_or_actor_map_id := none, freebase_character_id := none,
    freebase_actor_id := none }

/-- The character rows of the spec's running example: movie 1 credits
actors x, x, y; movie 2 credits actor z (whose birth date is null). -/
def sampleChars : List CharRow :=
  [sampleChar 1 "x" (some "1980-03-15"), sampleChar 1 "x" (some "1980-07-01"),
   sampleChar 1 "y" (some "1991-01-01"), sampleChar 2 "z" none]

/-- A loaded `MovieData` instance holding `sampleChars`. -/
def sampleCharMd : MovieData := { character_df := some sampleChars }

/-! ## Claims -/

/-- C1: the spec claims every query operation of a loaded instance is
safely repeatable (same output on a second call with the same
arguments, no state accumulated across calls).  The code violates
this: `movie_type` overwrites the `genres` column with
`ast.literal_eval`'s result, so its first call succeeds and the second
call applies `literal_eval` to an already-parsed dict and raises
`ValueError`.  This theorem evaluates the code at that failing input. -/
theorem claim_C1_movie_type_not_repeatable :
    movie_type sampleMovie 10
      = .ok (sampleMovieMutated, ⟨["Movie_Type", "Count"], [("Drama", 1)]⟩) ∧
    movie_type sampleMovieMutated 10 = .error QueryError.valueErrorLiteralEval :=
  ⟨rfl, rfl⟩

/-- C2: the spec claims `releases(genre)` fails with `InvalidArgument`
exactly when `genre` is not among the parsed display names, and
otherwise returns per-year counts.  The active code instead evaluates
`[d["name"] for d in x]` over the parsed mapping: iterating a dict
yields its string keys and indexing them with `"name"` raises
`TypeError` before the membership check can succeed, so the call fails
even though "Drama" is a display name of the loaded table.  (The
method's mis-indented final `return`, line 468, further makes the
module fail to import at all.)  This theorem evaluates the code at
that failing input. -/
theorem claim_C2_releases_genre_raises_typeerror :
    "Drama" ∈ allGenresOf [[("/m/02l7c8", "Drama")]] ∧
    releases sampleMovie (some "Drama") = .error QueryError.typeErrorStrIndex :=
  ⟨by decide, rfl⟩

/-- C10: for every loaded movie table and every integer `top_n ≤ 0`,
`movie_type(top_n)` does not raise and returns a dataframe with zero
rows and the `Movie_Type`/`Count` columns still present
(`most_common(n)` yields `[]` for non-positive `n`). -/
theorem claim_C10_movie_type_nonpositive_empty
    (md : MovieData) (rows : List MovieRow) (maps : List (List (String × String)))
    (N : Int) (hdf : md.movie_df = some rows)
    (hraw : rows.map (fun r => r.genres) = maps.map GenresCell.raw)
    (hN : N ≤ 0) :
    movie_type md N = .ok ({ md with movie_df := some (parsedRows rows maps) },
      ⟨["Movie_Type", "Count"], []⟩) := by
  have h1 := traverseE_literal_eval rows maps hraw
  have h2 : movieTypeRows maps N = [] := by
    rw [movieTypeRows, most_common, Int.toNat_of_nonpos hN, List.take_zero]
  simp only [movie_type, hdf, h1, h2]

/-- C10 witness: `movie_type(-1)` on the loaded sample instance. -/
theorem claim_C10_witness :
    movie_type sampleMovie (-1)
      = .ok (sampleMovieMutated, ⟨["Movie_Type", "Count"], []⟩) :=
  claim_C10_movie_type_nonpositive_empty sampleMovie [sampleMovieRow]
    [[("/m/02l7c8", "Drama")]] (-1) rfl rfl (by decide)

/-- C3: for every loaded movie table and every integer `top_n`,
`movie_type(top_n)` flattens all genre display names into a multiset,
counts occurrences, and returns at most `top_n` (name, count) pairs in
descending-count order with ties in first-encounter order.  The
conjuncts: the call succeeds and yields `movieTypeRows`; at most
`top_n` rows; counts weakly descending; every returned pair is a
flattened display name with its exact multiplicity; for each count
value the returned rows are a prefix of the first-encounter-ordered
`counter` entries with that count (stable tie-breaking); and when
`top_n` covers all distinct names, every flattened name appears with
its multiplicity. -/
theorem claim_C3_movie_type_top_counts
    (md : MovieData) (rows : List MovieRow) (maps : List (List (String × String)))
    (N : Int) (hdf : md.movie_df = some rows)
    (hraw : rows.map (fun r => r.genres) = maps.map GenresCell.raw) :
    movie_type md N = .ok ({ md with movie_df := some (parsedRows rows maps) },
      ⟨["Movie_Type", "Count"], movieTypeRows maps N⟩) ∧
    (movieTypeRows maps N).length ≤ N.toNat ∧
    (movieTypeRows maps N).Pairwise (fun a b => b.2 ≤ a.2) ∧
    (∀ p ∈ movieTypeRows maps N,
      p.1 ∈ allGenresOf maps ∧ p.2 = (allGenresOf maps).count p.1) ∧
    (∀ k : Nat, ∃ t, (counter (allGenresOf maps)).filter (fun p => p.2 == k)
        = (movieTypeRows maps N).filter (fun p => p.2 == k) ++ t) ∧
    ((counter (allGenresOf maps)).length ≤ N.toNat →
      ∀ g ∈ allGenresOf maps,
        (g, (allGenresOf maps).count g) ∈ movieTypeRows maps N) := by
  have hrows : movieTypeRows maps N
      = (sortCountDesc (counter (allGenresOf maps))).take N.toNat := rfl
  refine ⟨?_, ?_, ?_, ?_, ?_, ?_⟩
  · simp only [movie_type, hdf, traverseE_literal_eval rows maps hraw]
  · rw [hrows]
    exact List.length_take_le _ _
  · rw [hrows]
    exact List.Pairwise.sublist (List.take_sublist _ _) (sortCountDesc_pairwise _)
  · intro p hp
    rw [hrows] at hp
    have hp2 : p ∈ sortCountDesc (counter (allGenresOf maps)) :=
      List.mem_of_mem_take hp
    have hp3 : p ∈ counter (allGenresOf maps) :=
      (sortCountDesc_perm _).mem_iff.mp hp2
    exact ⟨counter_mem_key hp3, counter_mem_count hp3⟩
  · intro k
    obtain ⟨t, ht⟩ := filter_take_append (fun p => p.2 == k)
      (sortCountDesc (counter (allGenresOf maps))) N.toNat
    refine ⟨t, ?_⟩
    rw [hrows, ← sortCountDesc_filter_count k (counter (allGenresOf maps)), ht]
  · intro hlen g hg
    have hlen2 : (sortCountDesc (counter (allGenresOf maps))).length ≤ N.toNat := by
      rw [(sortCountDesc_perm _).length_eq]
      exact hlen
    rw [hrows, List.take_of_length_le hlen2]
    exact (sortCountDesc_perm _).mem_iff.mpr (mem_counter_of_mem hg)

/-- C3 witness: the sample instance with a single "Drama" mapping and
`top_n = 10`. -/
theorem claim_C3_witness :
    movie_type sampleMovie 10 = .ok (sampleMovieMutated,
      ⟨["Movie_Type", "Count"], movieTypeRows [[("/m/02l7c8", "Drama")]] 10⟩) ∧
    movieTypeRows [[("/m/02l7c8", "Drama")]] 10 = [("Drama", 1)] :=
  ⟨(claim_C3_movie_type_top_counts sampleMovie [sampleMovieRow]
      [[("/m/02l7c8", "Drama")]] 10 rfl rfl).1, rfl⟩

/-- C4: `actor_count()` deduplicates actor names per movie, then
returns, ascending in the actor-count value k, how many movies have
exactly k distinct actors; the movie counts sum to the number of
distinct movies with at least one character row.  The conjuncts: the
call succeeds with `actorHist`; ascending and key-unique rows; each
row's movie count is the exact number of distinct movies whose
distinct-actor count equals its key; every movie with a character row
is represented; and the counts sum to the number of distinct movie
ids. -/
theorem claim_C4_actor_count_histogram
    (md : MovieData) (rows : List CharRow) (hdf : md.character_df = some rows) :
    actor_count md = .ok ⟨["Number_of_Actors", "Movie_Count"], actorHist rows⟩ ∧
    (actorHist rows).Pairwise (fun a b => a.1 ≤ b.1) ∧
    ((actorHist rows).map Prod.fst).Nodup ∧
    (∀ p ∈ actorHist rows,
      p.2 = ((firstDedup (rows.map (fun r => r.wikipedia_movie_id))).map
        (distinctActorCountOf rows)).count p.1) ∧
    (∀ r ∈ rows, ∃ c,
      (distinctActorCountOf rows r.wikipedia_movie_id, c) ∈ actorHist rows) ∧
    ((actorHist rows).map Prod.snd).sum
      = (firstDedup (rows.map (fun r => r.wikipedia_movie_id))).length := by
  have hperm : List.Perm (actorHist rows)
      (counter ((movieIdsOf rows).map (distinctActorCountOf rows))) :=
    sortKey_perm _ _
  have hks : List.Perm ((movieIdsOf rows).map (distinctActorCountOf rows))
      ((firstDedup (rows.map (fun r => r.wikipedia_movie_id))).map
        (distinctActorCountOf rows)) :=
    (sortKey_perm _ _).map _
  refine ⟨?_, ?_, ?_, ?_, ?_, ?_⟩
  · simp only [actor_count, hdf]
  · exact sortKey_pairwise _ _
  · exact ((hperm.map Prod.fst).nodup_iff).mpr (counter_keys_nodup _)
  · intro p hp
    have hp2 := hperm.mem_iff.mp hp
    rw [counter_mem_count hp2]
    exact hks.count_eq p.1
  · intro r hr
    have h1 : r.wikipedia_movie_id ∈ movieIdsOf rows := by
      rw [movieIdsOf, (sortKey_perm _ _).mem_iff, mem_firstDedup]
      exact List.mem_map.mpr ⟨r, hr, rfl⟩
    have h2 : distinctActorCountOf rows r.wikipedia_movie_id
        ∈ (movieIdsOf rows).map (distinctActorCountOf rows) :=
      List.mem_map.mpr ⟨r.wikipedia_movie_id, h1, rfl⟩
    exact ⟨_, hperm.mem_iff.mpr (mem_counter_of_mem h2)⟩
  · rw [(hperm.map Prod.snd).sum_eq, counter_sum_length, List.length_map,
      movieIdsOf, (sortKey_perm _ _).length_eq]

/-- C4 witness: the spec's example — movie 1 credits x, x, y and movie
2 credits z, giving one movie with 1 distinct actor and one with 2. -/
theorem claim_C4_witness :
    actor_count sampleCharMd
      = .ok ⟨["Number_of_Actors", "Movie_Count"], actorHist sampleChars⟩ ∧
    actorHist sampleChars = [(1, 1), (2, 1)] :=
  ⟨(claim_C4_actor_count_histogram sampleCharMd sampleChars rfl).1, rfl⟩

/-- Membership in the gender filter. -/
theorem mem_genderFilter {g : String} {rows : List CharRow} {r : CharRow} :
    r ∈ genderFilter g rows ↔
      r ∈ rows ∧ (g = "All" ∨ r.actor_gender = some g) := by
  rw [genderFilter]
  by_cases hga : g = "All"
  · rw [if_pos hga]
    simp [hga]
  · rw [if_neg hga, List.mem_filter]
    simp [hga]

/-- Membership in the height filter: only rows with a non-null height
inside the inclusive range pass. -/
theorem mem_heightFilter {mn mx : ℚ} {rows : List CharRow} {r : CharRow} :
    r ∈ heightFilter mn mx rows ↔
      r ∈ rows ∧ ∃ h, r.actor_height_in_meters = some h ∧ mn ≤ h ∧ h ≤ mx := by
  rw [heightFilter, List.mem_filter]
  refine and_congr Iff.rfl ?_
  cases hh : r.actor_height_in_meters with
  | none => simp
  | some h => simp

/-- C5: for valid arguments, `actor_distributions` returns exactly the
character rows meeting the gender constraint (none for `"All"`) whose
height lies in `[min_height, max_height]` inclusive; rows with a null
height are never returned, and the result keeps the full
character-table column schema. -/
theorem claim_C5_actor_distributions_rows
    (md : MovieData) (rows : List CharRow) (g : String) (mn mx : ℚ) (plot : Bool)
    (hdf : md.character_df = some rows) (hrange : mn ≤ mx)
    (hg : g = "All" ∨ g ∈ rows.filterMap (fun r => r.actor_gender)) :
    actor_distributions md (.pystr g) (.pynum mn) (.pynum mx) plot
      = .ok ⟨charColumns, heightFilter mn mx (genderFilter g rows)⟩ ∧
    ∀ r, r ∈ heightFilter mn mx (genderFilter g rows) ↔
      r ∈ rows ∧ (g = "All" ∨ r.actor_gender = some g) ∧
      ∃ h, r.actor_height_in_meters = some h ∧ mn ≤ h ∧ h ≤ mx := by
  have hvalid : g ∈ validGendersOf rows := by
    rcases hg with rfl | hgm
    · exact List.mem_cons_self _ _
    · exact List.mem_cons_of_mem _ (mem_firstDedup.mpr hgm)
  constructor
  · simp only [actor_distributions, hdf, if_neg (not_lt.mpr hrange), if_pos hvalid]
  · intro r
    rw [mem_heightFilter, mem_genderFilter]
    tauto

/-- C5 witness: `actor_distributions("All", 1.5, 2.0)` on the sample
character table — all four rows have height 1.7 and pass. -/
theorem claim_C5_witness :
    actor_distributions sampleCharMd (.pystr "All") (.pynum q15) (.pynum 2) false
      = .ok ⟨charColumns, heightFilter q15 2 (genderFilter "All" sampleChars)⟩ ∧
    heightFilter q15 2 (genderFilter "All" sampleChars) = sampleChars :=
  ⟨(claim_C5_actor_distributions_rows sampleCharMd sampleChars "All" q15 2 false
      rfl (by decide) (Or.inl rfl)).1, rfl⟩

/-- C6: the validation ladder of `actor_distributions`, in source
order: a non-string gender fails the gender `isinstance` check; a
non-numeric bound fails the height `isinstance` check; `min_height >
max_height` fails the range check; and a string gender outside the
dynamically computed accepted set (`"All"` plus the distinct non-null
gender values) fails carrying that accepted set. -/
theorem claim_C6_actor_distributions_validation
    (md : MovieData) (rows : List CharRow) (plot : Bool)
    (hdf : md.character_df = some rows) :
    (∀ (g mnv mxv : PyVal), (∀ s, g ≠ .pystr s) →
      actor_distributions md g mnv mxv plot = .error .invalidArgGenderType) ∧
    (∀ (s : String) (mnv mxv : PyVal),
      ((∀ q, mnv ≠ .pynum q) ∨ (∀ q, mxv ≠ .pynum q)) →
      actor_distributions md (.pystr s) mnv mxv plot
        = .error .invalidArgHeightType) ∧
    (∀ (s : String) (mn mx : ℚ), mn > mx →
      actor_distributions md (.pystr s) (.pynum mn) (.pynum mx) plot
        = .error .invalidRange) ∧
    (∀ (s : String) (mn mx : ℚ), mn ≤ mx → s ≠ "All" →
      s ∉ rows.filterMap (fun r => r.actor_gender) →
      actor_distributions md (.pystr s) (.pynum mn) (.pynum mx) plot
        = .error (.invalidArgGender
            ("All" :: firstDedup (rows.filterMap (fun r => r.actor_gender))))) := by
  refine ⟨?_, ?_, ?_, ?_⟩
  · intro g mnv mxv hne
    cases g with
    | pystr s => exact absurd rfl (hne s)
    | pynum q => rfl
    | pynone => rfl
  · intro s mnv mxv h
    cases mnv with
    | pynum q1 =>
      cases mxv with
      | pynum q2 =>
        rcases h with h | h
        · exact absurd rfl (h q1)
        · exact absurd rfl (h q2)
      | pystr t => rfl
      | pynone => rfl
    | pystr t => cases mxv <;> rfl
    | pynone => cases mxv <;> rfl
  · intro s mn mx h
    simp only [actor_distributions, if_pos h]
  · intro s mn mx hle hne hnm
    have hnotmem : s ∉ validGendersOf rows := by
      intro hmem
      rcases List.mem_cons.mp hmem with h | h
      · exact hne h
      · exact hnm (mem_firstDedup.mp h)
    simp only [actor_distributions, hdf, if_neg (not_lt.mpr hle), if_neg hnotmem]
    rfl

/-- C6 witness: each validation failure exercised on the sample
character table (whose accepted gender set is `["All", "M"]`). -/
theorem claim_C6_witness :
    actor_distributions sampleCharMd .pynone (.pynum q15) (.pynum 2) false
      = .error .invalidArgGenderType ∧
    actor_distributions sampleCharMd (.pystr "All") .pynone (.pynum 2) false
      = .error .invalidArgHeightType ∧
    actor_distributions sampleCharMd (.pystr "All") (.pynum 2) (.pynum 1) false
      = .error .invalidRange ∧
    actor_distributions sampleCharMd (.pystr "F") (.pynum q15) (.pynum 2) false
      = .error (.invalidArgGender ["All", "M"]) := by
  have h := claim_C6_actor_distributions_validation sampleCharMd sampleChars false rfl
  refine ⟨h.1 _ _ _ (fun s => by intro hc; cases hc), ?_, ?_, ?_⟩
  · exact h.2.1 "All" _ _ (Or.inl (fun q => by intro hc; cases hc))
  · exact h.2.2.1 "All" 2 1 (by decide)
  · exact h.2.2.2 "F" q15 2 (by decide) (by decide) (by decide)

/-- C7: `ages(unit)` for a `unit` that is neither `"Y"` nor `"M"`
silently falls back to the `"Y"` behaviour, and `ages("Y")` groups the
non-null birth dates by their 4-character year token, drops non-numeric
tokens, and returns ascending (Year, Birth_Count) pairs — it never
raises on a loaded table.  The conjuncts: the fallback equality; the
successful `"Y"` result; ascending order; and the rows being exactly
(up to the final sort's arrangement) the numeric year tokens of the
retained rows with their multiplicities. -/
theorem claim_C7_ages_fallback_and_year
    (md : MovieData) (rows : List CharRow) (unit : String)
    (hdf : md.character_df = some rows)
    (hu1 : unit ≠ "Y") (hu2 : unit ≠ "M") :
    ages md unit = ages md "Y" ∧
    ages md "Y" = .ok ({ md with character_df := some (dobRows rows) },
      ⟨["Year", "Birth_Count"], agesYearRows (dobRows rows)⟩) ∧
    (agesYearRows (dobRows rows)).Pairwise (fun a b => a.1 ≤ b.1) ∧
    List.Perm (agesYearRows (dobRows rows))
      (((firstDedup ((dobRows rows).map birthYearTok)).filter isNumericStr).map
        (fun t => (digitsToNat t, ((dobRows rows).map birthYearTok).count t))) := by
  have hX : (((counter ((dobRows rows).map birthYearTok)).filter
        (fun p => isNumericStr p.1)).map (fun p => (digitsToNat p.1, p.2)))
      = ((firstDedup ((dobRows rows).map birthYearTok)).filter isNumericStr).map
        (fun t => (digitsToNat t, ((dobRows rows).map birthYearTok).count t)) := by
    rw [counter, List.filter_map, List.map_map]
    rfl
  refine ⟨?_, ?_, ?_, ?_⟩
  · simp [ages, hdf, hu1, hu2]
  · simp [ages, hdf]
  · exact sortKey_pairwise _ _
  · have h1 : List.Perm (agesYearRows (dobRows rows))
        (((counter ((dobRows rows).map birthYearTok)).filter
          (fun p => isNumericStr p.1)).map (fun p => (digitsToNat p.1, p.2))) :=
      sortKey_perm _ _
    rw [hX] at h1
    exact h1

/-- C7 witness: the spec's example birth dates 1980-03-15, 1980-07-01,
1991-01-01 (plus a null birth date that is dropped) under the invalid
unit "X". -/
theorem claim_C7_witness :
    ages sampleCharMd "X" = ages sampleCharMd "Y" ∧
    ages sampleCharMd "Y"
      = .ok ({ character_df := some (dobRows sampleChars) },
        ⟨["Year", "Birth_Count"], agesYearRows (dobRows sampleChars)⟩) ∧
    agesYearRows (dobRows sampleChars) = [(1980, 2), (1991, 1)] := by
  have h := claim_C7_ages_fallback_and_year sampleCharMd sampleChars "X" rfl
    (by decide) (by decide)
  exact ⟨h.1, h.2.1, rfl⟩

/-! ## Lemmas for the load/acquisition claims -/

theorem startsWithChars_refl : ∀ l : List Char, startsWithChars l l = true := by
  intro l
  induction l with
  | nil => rfl
  | cons a t ih => simp [startsWithChars, ih]

theorem hasSubChars_append : ∀ l pat : List Char, hasSubChars (l ++ pat) pat = true := by
  intro l pat
  induction l with
  | nil =>
    cases pat with
    | nil => rfl
    | cons b t => simp [hasSubChars, startsWithChars_refl]
  | cons a t ih => simp [hasSubChars, ih]

/-- A string obtained by appending `sub` mentions `sub`. -/
theorem strMentions_append (a sub : String) : strMentions (a ++ sub) sub = true := by
  rw [strMentions]
  have : (a ++ sub).data = a.data ++ sub.data := String.data_append a sub
  rw [this]
  exact hasSubChars_append _ _

/-- A joined path mentions its final component. -/
theorem strMentions_join (a name : String) :
    strMentions (os_path_join a name) name = true := by
  rw [os_path_join]
  by_cases h : a.data.getLast? = some '/'
  · rw [if_pos h]
    exact strMentions_append a name
  · rw [if_neg h]
    exact strMentions_append (a ++ "/") name

theorem mem_insertPath_self (p : String) (fs : List String) :
    p ∈ insertPath p fs := by
  rw [insertPath]
  by_cases h : p ∈ fs
  · rw [if_pos h]; exact h
  · rw [if_neg h]; exact List.mem_cons_self _ _

theorem mem_insertPath_of_mem {a : String} (p : String) {fs : List String}
    (h : a ∈ fs) : a ∈ insertPath p fs := by
  rw [insertPath]
  by_cases hp : p ∈ fs
  · rw [if_pos hp]; exact h
  · rw [if_neg hp]; exact List.mem_cons_of_mem _ h

theorem insertPath_eq_of_mem {p : String} {fs : List String} (h : p ∈ fs) :
    insertPath p fs = fs := if_pos h

theorem mem_foldl_insertPath_of_mem {a : String} :
    ∀ (l : List String) (fs : List String), a ∈ fs →
      a ∈ l.foldl (fun acc p => insertPath p acc) fs := by
  intro l
  induction l with
  | nil => intro fs h; exact h
  | cons p t ih =>
    intro fs h
    exact ih _ (mem_insertPath_of_mem p h)

theorem mem_foldl_insertPath_of_mem_list {a : String} :
    ∀ (l : List String) (fs : List String), a ∈ l →
      a ∈ l.foldl (fun acc p => insertPath p acc) fs := by
  intro l
  induction l with
  | nil => intro fs h; cases h
  | cons p t ih =>
    intro fs h
    rcases List.mem_cons.mp h with rfl | h
    · exact mem_foldl_insertPath_of_mem t _ (mem_insertPath_self a fs)
    · exact ih _ h

/-- After a run of the acquisition phase (assuming the archive's layout
materialises the extraction directory), the download directory, the
archive file and the extraction directory all exist. -/
theorem acquirePhase_post (download_path extract_path : String)
    (archivePaths fs : List String)
    (hlayout : extract_path ∈ archivePaths) :
    download_path ∈ (acquirePhase download_path extract_path archivePaths fs).1 ∧
    os_path_join download_path "MovieSummaries.tar.gz"
      ∈ (acquirePhase download_path extract_path archivePaths fs).1 ∧
    extract_path ∈ (acquirePhase download_path extract_path archivePaths fs).1 := by
  rw [acquirePhase]
  by_cases h1 : os_path_join download_path "MovieSummaries.tar.gz"
      ∈ insertPath download_path fs
  · rw [if_pos h1]
    by_cases h2 : extract_path ∈ insertPath download_path fs
    · rw [if_pos h2]
      exact ⟨mem_insertPath_self _ _, h1, h2⟩
    · rw [if_neg h2]
      exact ⟨mem_foldl_insertPath_of_mem _ _ (mem_insertPath_self _ _),
             mem_foldl_insertPath_of_mem _ _ h1,
             mem_foldl_insertPath_of_mem_list _ _ hlayout⟩
  · rw [if_neg h1]
    by_cases h2 : extract_path
        ∈ insertPath (os_path_join download_path "MovieSummaries.tar.gz")
            (insertPath download_path fs)
    · rw [if_pos h2]
      exact ⟨mem_insertPath_of_mem _ (mem_insertPath_self _ _),
             mem_insertPath_self _ _, h2⟩
    · rw [if_neg h2]
      exact ⟨mem_foldl_insertPath_of_mem _ _
               (mem_insertPath_of_mem _ (mem_insertPath_self _ _)),
             mem_foldl_insertPath_of_mem _ _ (mem_insertPath_self _ _),
             mem_foldl_insertPath_of_mem_list _ _ hlayout⟩

/-- When everything already exists, the acquisition phase is a pure
no-op: same filesystem, no download, no extraction. -/
theorem acquirePhase_stable (download_path extract_path : String)
    (archivePaths fs : List String)
    (hdl : download_path ∈ fs)
    (hfile : os_path_join download_path "MovieSummaries.tar.gz" ∈ fs)
    (hex : extract_path ∈ fs) :
    acquirePhase download_path extract_path archivePaths fs = (fs, []) := by
  rw [acquirePhase, insertPath_eq_of_mem hdl, if_pos hfile, if_pos hex]
  rfl

/-- C8 counterexample: with the movie metadata file missing (character
and plot files present), the load fails with the module's
`FileNotFoundError`, but its fixed message does not name the missing
file — contradicting the claim that the error names which file(s) are
missing. -/
theorem claim_C8_counterexample :
    load_dataframes "downloads/MovieSummaries/"
      ["downloads/MovieSummaries/character.metadata.tsv",
       "downloads/MovieSummaries/plot_summaries.txt"] [] [] []
      = .error (.fileNotFoundMsg loadMissingMsg) ∧
    loadErrorNames (.fileNotFoundMsg loadMissingMsg) "movie.metadata.tsv" = false :=
  ⟨rfl, rfl⟩

/-- C8 amended: if the movie or character metadata file is missing,
load fails with the module's `FileNotFoundError` whose fixed generic
message names neither file; the plot-summaries file is not covered by
the guard at all — when only it is missing, the failure is the file
reader's `FileNotFoundError`, which does name that file's path. -/
theorem claim_C8_amended (extract_path : String) (fs : List String)
    (mt : List MovieRow) (ct : List CharRow) (pt : List (Int × String)) :
    (os_path_join extract_path "movie.metadata.tsv" ∉ fs ∨
        os_path_join extract_path "character.metadata.tsv" ∉ fs →
      load_dataframes extract_path fs mt ct pt
        = .error (.fileNotFoundMsg loadMissingMsg)) ∧
    (os_path_join extract_path "movie.metadata.tsv" ∈ fs →
      os_path_join extract_path "character.metadata.tsv" ∈ fs →
      os_path_join extract_path "plot_summaries.txt" ∉ fs →
      load_dataframes extract_path fs mt ct pt
        = .error (.readFileNotFound (os_path_join extract_path "plot_summaries.txt")) ∧
      loadErrorNames
        (.readFileNotFound (os_path_join extract_path "plot_summaries.txt"))
        "plot_summaries.txt" = true) ∧
    loadErrorNames (.fileNotFoundMsg loadMissingMsg) "movie.metadata.tsv" = false ∧
    loadErrorNames (.fileNotFoundMsg loadMissingMsg) "character.metadata.tsv"
      = false := by
  refine ⟨?_, ?_, rfl, rfl⟩
  · intro h
    rw [load_dataframes, if_neg]
    intro hand
    rcases h with h | h
    · exact h hand.1
    · exact h hand.2
  · intro h1 h2 h3
    rw [load_dataframes, if_pos ⟨h1, h2⟩, if_neg h3]
    exact ⟨rfl, strMentions_join _ _⟩

/-- C8 witness: both amended failure modes at concrete filesystems. -/
theorem claim_C8_witness :
    load_dataframes "downloads/MovieSummaries/"
      ["downloads/MovieSummaries/plot_summaries.txt"] [] [] []
      = .error (.fileNotFoundMsg loadMissingMsg) ∧
    load_dataframes "downloads/MovieSummaries/"
      ["downloads/MovieSummaries/movie.metadata.tsv",
       "downloads/MovieSummaries/character.metadata.tsv"] [] [] []
      = .error (.readFileNotFound "downloads/MovieSummaries/plot_summaries.txt") :=
  ⟨(claim_C8_amended "downloads/MovieSummaries/"
      ["downloads/MovieSummaries/plot_summaries.txt"] [] [] []).1
      (Or.inl (by decide)),
   ((claim_C8_amended "downloads/MovieSummaries/"
      ["downloads/MovieSummaries/movie.metadata.tsv",
       "downloads/MovieSummaries/character.metadata.tsv"] [] [] []).2.1
      (by decide) (by decide) (by decide)).1⟩

/-- C9: acquisition is idempotent.  If a first `setup` run succeeded
(and the archive layout materialises the extraction directory, as the
dataset tarball does), a second run on the resulting filesystem
performs no download and no extraction — its event trace is empty, the
filesystem is unchanged, and it returns the same loaded tables after
mere existence checks. -/
theorem claim_C9_setup_idempotent
    (download_path extract_path : String)
    (archivePaths fs fs1 : List String) (evs : List AcqEv) (md : MovieData)
    (mt : List MovieRow) (ct : List CharRow) (pt : List (Int × String))
    (hlayout : extract_path ∈ archivePaths)
    (h1 : setup download_path extract_path archivePaths fs mt ct pt
      = .ok (fs1, evs, md)) :
    setup download_path extract_path archivePaths fs1 mt ct pt
      = .ok (fs1, [], md) := by
  rw [setup] at h1
  rcases hld : load_dataframes extract_path
      (acquirePhase download_path extract_path archivePaths fs).1 mt ct pt with e | md'
  · rw [hld] at h1
    cases h1
  · rw [hld] at h1
    injection h1 with h1'
    obtain ⟨hfs1, _, hmd⟩ : (acquirePhase download_path extract_path archivePaths fs).1
        = fs1 ∧ (acquirePhase download_path extract_path archivePaths fs).2 = evs
        ∧ md' = md := by
      refine ⟨congrArg Prod.fst h1', ?_, ?_⟩
      · exact congrArg (fun x => x.2.1) h1'
      · exact congrArg (fun x => x.2.2) h1'
    obtain ⟨hdl, hfile, hex⟩ := acquirePhase_post download_path extract_path
      archivePaths fs hlayout
    rw [hfs1] at hdl hfile hex
    have hstable := acquirePhase_stable download_path extract_path
      archivePaths fs1 hdl hfile hex
    rw [setup, hstable]
    have hld2 : load_dataframes extract_path fs1 mt ct pt = .ok md := by
      rw [← hmd, ← hld, hfs1]
    rw [hld2]

/-- C9 witness: a concrete first run from an empty filesystem (one
download, one extraction, then a successful load), followed by the
idempotent second run: same filesystem, empty event trace, same
tables. -/
theorem claim_C9_witness :
    setup "downloads/" "downloads/MovieSummaries/"
      ["downloads/MovieSummaries/",
       "downloads/MovieSummaries/movie.metadata.tsv",
       "downloads/MovieSummaries/character.metadata.tsv",
       "downloads/MovieSummaries/plot_summaries.txt"]
      ["downloads/MovieSummaries/plot_summaries.txt",
       "downloads/MovieSummaries/character.metadata.tsv",
       "downloads/MovieSummaries/movie.metadata.tsv",
       "downloads/MovieSummaries/",
       "downloads/MovieSummaries.tar.gz", "downloads/"]
      [sampleMovieRow] sampleChars []
      = .ok (["downloads/MovieSummaries/plot_summaries.txt",
              "downloads/MovieSummaries/character.metadata.tsv",
              "downloads/MovieSummaries/movie.metadata.tsv",
              "downloads/MovieSummaries/",
              "downloads/MovieSummaries.tar.gz", "downloads/"], [],
             { movie_df := some [sampleMovieRow],
               character_df := some sampleChars,
               plot_summaries := some [] }) :=
  claim_C9_setup_idempotent "downloads/" "downloads/MovieSummaries/"
    ["downloads/MovieSummaries/",
     "downloads/MovieSummaries/movie.metadata.tsv",
     "downloads/MovieSummaries/character.metadata.tsv",
     "downloads/MovieSummaries/plot_summaries.txt"]
    []
    ["downloads/MovieSummaries/plot_summaries.txt",
     "downloads/MovieSummaries/character.metadata.tsv",
     "downloads/MovieSummaries/movie.metadata.tsv",
     "downloads/MovieSummaries/",
     "downloads/MovieSummaries.tar.gz", "downloads/"]
    [AcqEv.download, AcqEv.extract]
    { movie_df := some [sampleMovieRow], character_df := some sampleChars,
      plot_summaries := some [] }
    [sampleMovieRow] sampleChars [] (by decide) (by rfl)
